import Mathlib

/-!
Shallow embedding of `clickhouse_mcp_server/server.py`: the catalog
resolver (`list_resources`, `read_resource`), the query gateway
(`call_tool`) and the connection-parameter resolution
(`get_clickhouse_client`).  The backing store (ClickHouse engine plus
driver) is an external collaborator and is modelled as a record of
query capabilities; the adapter functions are translated statement by
statement from the Python source.
-/

namespace ClickhouseMcp

/-- Python whitespace as recognised by `str.strip()`: space, tab,
newline, carriage return, vertical tab, form feed. -/
def pyIsSpace (c : Char) : Bool :=
  c == ' ' || c == '\t' || c == '\n' || c == '\r' ||
    c == (Char.ofNat 11) || c == (Char.ofNat 12)

/-- Python `str.strip()`: drop leading and trailing whitespace. -/
def pyStrip (s : String) : String :=
  String.mk (((s.data.dropWhile pyIsSpace).reverse.dropWhile pyIsSpace).reverse)

/-- Python `str.upper()` on one character, restricted to ASCII (the
only characters relevant to the SQL keywords compared against). -/
def pyUpperChar (c : Char) : Char :=
  if 'a' ≤ c && c ≤ 'z' then Char.ofNat (c.toNat - 32) else c

/-- Python `str.upper()`. -/
def pyUpper (s : String) : String :=
  String.mk (s.data.map pyUpperChar)

/-- Python `str.startswith(pre)`. -/
def pyStartsWith (s pre : String) : Bool :=
  pre.data.isPrefixOf s.data

/-- Split a character list at every occurrence of `sep`, keeping empty
groups, as Python `str.split(sep)` does: `"a//b"` gives
`["a", "", "b"]`, `""` gives `[""]`. -/
def splitChars (sep : Char) : List Char → List (List Char)
  | [] => [[]]
  | c :: cs =>
    if c == sep then [] :: splitChars sep cs
    else
      match splitChars sep cs with
      | [] => [[c]]
      | g :: gs => (c :: g) :: gs

/-- Python `str.split("/")`. -/
def pySplitSlash (s : String) : List String :=
  (splitChars '/' s.data).map String.mk

/-- Decimal digits to a number, `none` on an empty or non-digit list. -/
def natOfDigits (cs : List Char) : Option Nat :=
  if cs = [] then none
  else
    cs.foldl
      (fun acc c =>
        acc.bind (fun n => if c.isDigit then some (10 * n + (c.toNat - 48)) else none))
      (some 0)

/-- Python `int(s)` on a plain decimal literal with an optional sign:
`none` models the raised `ValueError` (whitespace and underscore forms,
which Python also accepts, are not needed by any claim). -/
def pyInt? (s : String) : Option Int :=
  match s.data with
  | '-' :: cs => (natOfDigits cs).map (fun n => -(n : Int))
  | '+' :: cs => (natOfDigits cs).map (fun n => (n : Int))
  | cs => (natOfDigits cs).map (fun n => (n : Int))

/-- A scalar value returned by the backing store.  `display` is the
Python `str(value)` conversion applied in `call_tool` (server.py line
165): a string displays as itself, an integer as its decimal form. -/
inductive Value where
  | vstr (s : String)
  | vint (n : Int)
deriving DecidableEq, Repr

def Value.display : Value → String
  | .vstr s => s
  | .vint n => toString n

/-- Result of a successful store query: the `column_names` and
`result_rows` attributes used by `call_tool` (server.py lines 163-164). -/
structure QueryResult where
  column_names : List String
  result_rows : List (List Value)
deriving DecidableEq, Repr

/-- The backing-store capability as consumed by the adapter.
`databases` is the content of `system.databases` in store order (names
only; the `engine` column of the source query is never used).
`tablesOf db` answers `SHOW TABLES FROM db`, `describeTable db t`
answers `DESCRIBE TABLE db.t` as (name, type) pairs, and `runSelect q`
executes an arbitrary query string for the tool path; each returns
`.error m` when the store raises an exception with message `m`. -/
structure Store where
  databases : List String
  tablesOf : String → Except String (List String)
  describeTable : String → String → Except String (List (String × String))
  runSelect : String → Except String QueryResult

/-- The literal exclusion list of the database query in `list_resources`
(server.py line 64): `WHERE name NOT IN ('system', 'information_schema',
'INFORMATION_SCHEMA')`. -/
def excludedDbNames : List String :=
  ["system", "information_schema", "INFORMATION_SCHEMA"]

/-- Store-side evaluation of the `db_query` of `list_resources`
(server.py lines 59-66): all database names whose name is not literally
one of the three excluded names, ClickHouse string comparison being
case-sensitive, in store order. -/
def visibleDatabases (s : Store) : List String :=
  s.databases.filter (fun n => ! excludedDbNames.contains n)

/-- An MCP `Resource` descriptor as built in `list_resources`:
(uri, name, mimeType, description). -/
structure Resource where
  uri : String
  name : String
  mimeType : String
  description : String
deriving DecidableEq, Repr

/-- The table-list descriptor emitted per database (server.py lines 69-76). -/
def databaseResource (db : String) : Resource :=
  { uri := "clickhouse://" ++ db ++ "/tables"
    name := "Database: " ++ db
    mimeType := "text/plain"
    description := "Tables in database: " ++ db }

/-- The schema descriptor emitted per table (server.py lines 80-90). -/
def tableSchemaResource (db t : String) : Resource :=
  { uri := "clickhouse://" ++ db ++ "/" ++ t ++ "/schema"
    name := "Table: " ++ db ++ "." ++ t
    mimeType := "text/plain"
    description := "Schema of table: " ++ db ++ "." ++ t }

/-- The loop body of `list_resources` (server.py lines 67-90) over a
list of database names: for each database, one table-list descriptor
followed by one schema descriptor per table of that database; any store
exception while listing tables aborts the whole call. -/
def listResourcesFrom (s : Store) : List String → Except String (List Resource)
  | [] => .ok []
  | db :: rest =>
    match s.tablesOf db with
    | .error e => .error e
    | .ok tabs =>
      match listResourcesFrom s rest with
      | .error e => .error e
      | .ok tail =>
        .ok (databaseResource db :: (tabs.map (tableSchemaResource db) ++ tail))

/-- Embedding of `list_resources` (server.py lines 53-92). -/
def list_resources (s : Store) : Except String (List Resource) :=
  listResourcesFrom s (visibleDatabases s)

/-- Outcome of the identifier-shape dispatch of `read_resource`
(server.py lines 106-118): the `len(parts) == 2 and parts[1] == "tables"`
branch, the `len(parts) == 3 and parts[2] == "schema"` branch, or the
final `else`. -/
inductive ParsedUri where
  | tablesRef (database : String)
  | schemaRef (database table : String)
  | invalid
deriving DecidableEq, Repr

def parseUri (parts : List String) : ParsedUri :=
  match parts with
  | [db, "tables"] => .tablesRef db
  | [db, t, "schema"] => .schemaRef db t
  | _ => .invalid

/-- The failures of `read_resource`: `invalidScheme uri` is the raised
`ValueError("Invalid URI scheme: {uri}")` (server.py line 103),
`invalidIdentifier uri` is the raised
`ValueError("Invalid resource URI: {uri}")` (line 118), and
`storeError m` is a store exception propagating unmodified. -/
inductive ReadError where
  | invalidScheme (uri : String)
  | invalidIdentifier (uri : String)
  | storeError (msg : String)
deriving DecidableEq, Repr

/-- Embedding of `read_resource` (server.py lines 95-118): check the scheme, split
the remainder on `/`, dispatch on the shape. -/
def read_resource (s : Store) (uri : String) : Except ReadError String :=
  if pyStartsWith uri "clickhouse://" then
    match parseUri (pySplitSlash (uri.drop ("clickhouse://".length))) with
    | .tablesRef database =>
      match s.tablesOf database with
      | .ok rows => .ok (String.intercalate "\n" rows)
      | .error m => .error (.storeError m)
    | .schemaRef database table =>
      match s.describeTable database table with
      | .ok cols =>
        .ok (String.intercalate "\n" (cols.map (fun c => c.1 ++ " - " ++ c.2)))
      | .error m => .error (.storeError m)
    | .invalid => .error (.invalidIdentifier uri)
  else .error (.invalidScheme uri)

/-- An identifier matching the two-shape grammar of the spec: scheme
`clickhouse://` and a remainder splitting into `{database}/tables` or
`{database}/{table}/schema` — exactly the parse `read_resource`
performs. -/
def validIdentifier (uri : String) : Bool :=
  pyStartsWith uri "clickhouse://" &&
    parseUri (pySplitSlash (uri.drop ("clickhouse://".length))) != ParsedUri.invalid

/-- A `TextContent` block of a tool response: the `type` field is always
the literal `"text"` in the source. -/
structure TextContent where
  type : String
  text : String
deriving DecidableEq, Repr

/-- A `ValueError` raised by `call_tool` (server.py lines 149 and 153). -/
inductive ToolError where
  | valueError (msg : String)
deriving DecidableEq, Repr

/-- The serialization of a query result in `call_tool` (server.py lines
162-167): first the tab-joined column names, then one tab-joined line of
`str(value)` per row, all joined by newlines. -/
def renderQueryResult (r : QueryResult) : String :=
  String.intercalate "\n"
    (String.intercalate "\t" r.column_names ::
      r.result_rows.map (fun row => String.intercalate "\t" (row.map Value.display)))

/-- The body of `call_tool` from the truthiness check on (server.py
lines 152-170), for a `query` value that is present: an empty string is
falsy and raises `ValueError("Query is required")`; the gate is
`query.strip().upper().startswith("SELECT")`; queries passing it are
sent verbatim to the store, whose exception is caught and rendered as
content. -/
def executeSelectQuery (s : Store) (q : String) :
    Except ToolError (List TextContent) :=
  if q = "" then .error (.valueError "Query is required")
  else if ! pyStartsWith (pyUpper (pyStrip q)) "SELECT" then
    .ok [{ type := "text", text := "Error: Only SELECT queries are allowed." }]
  else
    match s.runSelect q with
    | .ok r => .ok [{ type := "text", text := renderQueryResult r }]
    | .error m =>
      .ok [{ type := "text", text := "Error executing query: " ++ m }]

/-- Embedding of `call_tool` (server.py lines 143-170).  `query` is
`arguments.get("query")`, `none` when the key is absent; the Python
truthiness test `if not query` rejects both a missing key and an empty
string with the same `ValueError`. -/
def call_tool (s : Store) (name : String) (query : Option String) :
    Except ToolError (List TextContent) :=
  if name ≠ "execute_select_query" then
    .error (.valueError ("Unknown tool: " ++ name))
  else
    match query with
    | none => .error (.valueError "Query is required")
    | some q => executeSelectQuery s q

/-- The resolved connection parameters of `get_clickhouse_client`
(server.py lines 36-40). -/
structure ConnParams where
  host : String
  port : Int
  username : String
  password : String
  database : String
deriving DecidableEq, Repr

/-- Python `os.getenv(name, default)`: the environment value when the
variable is set (even to the empty string), else the default. -/
def getenvD (env : String → Option String) (name dflt : String) : String :=
  (env name).getD dflt

/-- Python `arg or fallback` on an optional string: the argument when it
is truthy (present and non-empty), else the fallback. -/
def pyOrStr (arg : Option String) (fallback : String) : String :=
  match arg with
  | some s => if s = "" then fallback else s
  | none => fallback

/-- Python `arg or fallback` on an optional int: the argument when it is
truthy (present and nonzero), else the fallback; the fallback is only
evaluated in that case, so a bad `CLICKHOUSE_PORT` cannot fail a call
with an explicit nonzero port. -/
def pyOrInt (arg : Option Int) (fallback : Except String Int) : Except String Int :=
  match arg with
  | some n => if n = 0 then fallback else .ok n
  | none => fallback

/-- Python `int(os.getenv("CLICKHOUSE_PORT", "8123"))` (server.py line
37): parse the environment string, raising `ValueError` when it is not
an integer literal. -/
def envPortInt (env : String → Option String) : Except String Int :=
  match pyInt? (getenvD env "CLICKHOUSE_PORT" "8123") with
  | some n => .ok n
  | none =>
    .error ("invalid literal for int: " ++ getenvD env "CLICKHOUSE_PORT" "8123")

/-- Embedding of `get_clickhouse_client` (server.py lines 27-47), up to the parameter
resolution it performs; the driver handle itself is external, so the
model returns the resolved parameters.  Each parameter is
`explicit_argument or environment-or-default`, with Python `or`
truthiness. -/
def get_clickhouse_client (env : String → Option String)
    (host : Option String) (port : Option Int)
    (username password database : Option String) :
    Except String ConnParams :=
  match pyOrInt port (envPortInt env) with
  | .error e => .error e
  | .ok p =>
    .ok { host := pyOrStr host (getenvD env "CLICKHOUSE_HOST" "localhost")
          port := p
          username := pyOrStr username (getenvD env "CLICKHOUSE_USER" "default")
          password := pyOrStr password (getenvD env "CLICKHOUSE_PASSWORD" "")
          database := pyOrStr database (getenvD env "CLICKHOUSE_DATABASE" "default") }

/-- A store with no databases that fails every query; used to
instantiate universally quantified theorems at concrete inputs. -/
def storeEmpty : Store :=
  { databases := []
    tablesOf := fun _ => .error "no such database"
    describeTable := fun _ _ => .error "no such table"
    runSelect := fun _ => .error "boom" }

/-- A store holding the databases `system`, `SYSTEM` and `default`, the
last with a single table `t` of columns `(id UUID, name String)`. -/
def storeSample : Store :=
  { databases := ["system", "SYSTEM", "default"]
    tablesOf := fun db => if db = "default" then .ok ["t"] else .ok []
    describeTable := fun db t =>
      if db = "default" && t = "t" then .ok [("id", "UUID"), ("name", "String")]
      else .error ("Table " ++ db ++ "." ++ t ++ " does not exist")
    runSelect := fun q =>
      if q = "SELECT * FROM test_table" then
        .ok { column_names := ["id", "name", "value"]
              result_rows :=
                [[.vstr "u1", .vstr "Test 1", .vint 10],
                 [.vstr "u2", .vstr "Test 2", .vint 20]] }
      else .error ("Syntax error: " ++ q) }

/-- An environment with no variables set. -/
def envNone : String → Option String := fun _ => none

/-- An environment setting all five connection variables. -/
def envSample : String → Option String := fun k =>
  if k = "CLICKHOUSE_HOST" then some "envhost"
  else if k = "CLICKHOUSE_PORT" then some "9000"
  else if k = "CLICKHOUSE_USER" then some "envuser"
  else if k = "CLICKHOUSE_PASSWORD" then some "envpw"
  else if k = "CLICKHOUSE_DATABASE" then some "envdb"
  else none

/-- Decidable equality for `Except`, so that concrete adapter outcomes
can be checked by `decide`. -/
instance exceptDecidableEq {e a : Type} [DecidableEq e] [DecidableEq a] :
    DecidableEq (Except e a) :=
  fun x y =>
    match x, y with
    | .ok v, .ok w =>
      if h : v = w then .isTrue (by rw [h])
      else .isFalse (fun hc => h (by injection hc))
    | .error v, .error w =>
      if h : v = w then .isTrue (by rw [h])
      else .isFalse (fun hc => h (by injection hc))
    | .ok _, .error _ => .isFalse (fun hc => by injection hc)
    | .error _, .ok _ => .isFalse (fun hc => by injection hc)

/-- A query whose stripped, upper-cased form starts with `SELECT` is in
particular not the empty string, so it survives the truthiness check
that precedes the gate. -/
theorem gate_ne_empty (q : String)
    (hg : pyStartsWith (pyUpper (pyStrip q)) "SELECT" = true) : q ≠ "" := by
  intro h
  subst h
  simp [pyStartsWith, pyUpper, pyStrip] at hg

/-- C1 (amended: non-empty queries): for every non-empty query string
whose stripped, case-normalized form does not start with SELECT,
`call_tool` on `execute_select_query` does not raise, returns exactly
one text block with body "Error: Only SELECT queries are allowed.", and
its result is independent of the backing store (no store contact). -/
theorem call_tool_rejects_nonempty_non_select (s s' : Store) (q : String)
    (hq : q ≠ "")
    (hg : pyStartsWith (pyUpper (pyStrip q)) "SELECT" = false) :
    call_tool s "execute_select_query" (some q) =
      .ok [{ type := "text", text := "Error: Only SELECT queries are allowed." }] ∧
    call_tool s "execute_select_query" (some q) =
      call_tool s' "execute_select_query" (some q) := by
  have h1 : ∀ t : Store, call_tool t "execute_select_query" (some q) =
      .ok [{ type := "text", text := "Error: Only SELECT queries are allowed." }] := by
    intro t
    simp [call_tool, executeSelectQuery, hq, hg]
  exact ⟨h1 s, (h1 s).trans (h1 s').symm⟩

theorem call_tool_rejects_nonempty_non_select_witness :
    ("DROP TABLE users" ≠ "" ∧
      pyStartsWith (pyUpper (pyStrip "DROP TABLE users")) "SELECT" = false) ∧
    call_tool storeEmpty "execute_select_query" (some "DROP TABLE users") =
      .ok [{ type := "text", text := "Error: Only SELECT queries are allowed." }] :=
  ⟨by decide,
   (call_tool_rejects_nonempty_non_select storeEmpty storeSample "DROP TABLE users"
     (by decide) (by decide)).1⟩

/-- C1 counterexample: the empty string also fails the gate check of the
claim, yet `call_tool` raises `ValueError("Query is required")` for it
instead of returning the rejection block, because the Python truthiness
test `if not query` fires first. -/
theorem empty_query_raises_not_rejects :
    (pyStartsWith (pyUpper (pyStrip "")) "SELECT" = false) ∧
    call_tool storeEmpty "execute_select_query" (some "") =
      .error (.valueError "Query is required") := by
  constructor
  · decide
  · rfl

/-- C2 counterexample: for the gate-passing query "SELECT 1" on a store
raising "boom", the returned text is "Error executing query: boom",
which is not "Error: executing query: " followed by the message — the
source f-string (server.py line 170) has no colon after "Error". -/
theorem exec_error_text_has_no_colon :
    (pyStartsWith (pyUpper (pyStrip "SELECT 1")) "SELECT" = true ∧
      storeEmpty.runSelect "SELECT 1" = .error "boom") ∧
    call_tool storeEmpty "execute_select_query" (some "SELECT 1") =
      .ok [{ type := "text", text := "Error executing query: boom" }] ∧
    "Error executing query: boom" ≠ "Error: " ++ "executing query: " ++ "boom" :=
  ⟨⟨by decide, by rfl⟩, by rfl, by decide⟩

/-- C2 (amended: message prefix "Error executing query: "): for every
query that passes the read-only gate but whose execution raises an
error with message m, `call_tool` does not raise; it returns a
successful response whose single text block is exactly
"Error executing query: " followed by m. -/
theorem call_tool_execution_error_text (s : Store) (q m : String)
    (hg : pyStartsWith (pyUpper (pyStrip q)) "SELECT" = true)
    (he : s.runSelect q = .error m) :
    call_tool s "execute_select_query" (some q) =
      .ok [{ type := "text", text := "Error executing query: " ++ m }] := by
  simp [call_tool, executeSelectQuery, gate_ne_empty q hg, hg, he]

theorem call_tool_execution_error_text_witness :
    (pyStartsWith (pyUpper (pyStrip "SELECT count() FROM t")) "SELECT" = true ∧
      storeEmpty.runSelect "SELECT count() FROM t" = .error "boom") ∧
    call_tool storeEmpty "execute_select_query" (some "SELECT count() FROM t") =
      .ok [{ type := "text", text := "Error executing query: boom" }] :=
  ⟨⟨by decide, by rfl⟩,
   call_tool_execution_error_text storeEmpty "SELECT count() FROM t" "boom"
     (by decide) (by rfl)⟩

/-- C3: for every identifier that does not match one of the two shapes
of the grammar, `read_resource` fails — with the invalid-scheme error
when the scheme is not `clickhouse://` and with the invalid-identifier
error otherwise — and its result is independent of the backing store,
i.e. no metadata query is ever issued for it. -/
theorem read_resource_rejects_invalid_identifiers (s s' : Store) (uri : String)
    (h : validIdentifier uri = false) :
    read_resource s uri = read_resource s' uri ∧
    (pyStartsWith uri "clickhouse://" = false →
      read_resource s uri = .error (.invalidScheme uri)) ∧
    (pyStartsWith uri "clickhouse://" = true →
      read_resource s uri = .error (.invalidIdentifier uri)) := by
  have key : ∀ t : Store, read_resource t uri =
      if pyStartsWith uri "clickhouse://" then
        Except.error (ReadError.invalidIdentifier uri)
      else Except.error (ReadError.invalidScheme uri) := by
    intro t
    unfold read_resource
    cases hs : pyStartsWith uri "clickhouse://" with
    | false => simp
    | true =>
      have hp : parseUri (pySplitSlash (uri.drop ("clickhouse://".length))) =
          ParsedUri.invalid := by
        unfold validIdentifier at h
        rw [hs] at h
        simpa using h
      simp [hp]
  refine ⟨(key s).trans (key s').symm, fun hf => ?_, fun ht => ?_⟩
  · rw [key s]
    simp [hf]
  · rw [key s]
    simp [ht]

theorem read_resource_rejects_invalid_identifiers_witness :
    (validIdentifier "clickhouse://default/oops" = false ∧
      pyStartsWith "clickhouse://default/oops" "clickhouse://" = true) ∧
    read_resource storeEmpty "clickhouse://default/oops" =
      .error (.invalidIdentifier "clickhouse://default/oops") :=
  ⟨by decide,
   (read_resource_rejects_invalid_identifiers storeEmpty storeSample
     "clickhouse://default/oops" (by decide)).2.2 (by decide)⟩

/-- C4 counterexample: a store exposing a database named "SYSTEM" — the
upper-case variant of the internal system database name — is not
filtered out: `list_resources` emits a descriptor for it, because the
source query only excludes the three literal names 'system',
'information_schema' and 'INFORMATION_SCHEMA'. -/
theorem uppercase_system_database_listed :
    list_resources storeSample =
      .ok [databaseResource "SYSTEM", databaseResource "default",
           tableSchemaResource "default" "t"] ∧
    pyUpper "system" = "SYSTEM" ∧
    (databaseResource "SYSTEM").uri = "clickhouse://SYSTEM/tables" :=
  ⟨by rfl, by decide, by rfl⟩

/-- Every resource produced by the `list_resources` loop over a list of
database names stems from one of those databases, as its table-list
descriptor or one of its schema descriptors. -/
theorem listResourcesFrom_mem (s : Store) :
    ∀ (dbs : List String) (res : List Resource),
      listResourcesFrom s dbs = .ok res →
      ∀ r ∈ res, ∃ db, db ∈ dbs ∧
        (r = databaseResource db ∨ ∃ t, r = tableSchemaResource db t) := by
  intro dbs
  induction dbs with
  | nil =>
    intro res h r hr
    simp [listResourcesFrom] at h
    subst h
    simp at hr
  | cons db rest ih =>
    intro res h r hr
    rw [listResourcesFrom] at h
    cases htab : s.tablesOf db with
    | error e => rw [htab] at h; exact absurd h (by simp)
    | ok tabs =>
      rw [htab] at h
      cases hrec : listResourcesFrom s rest with
      | error e => rw [hrec] at h; exact absurd h (by simp)
      | ok tail =>
        rw [hrec] at h
        have hres : res = databaseResource db ::
            (tabs.map (tableSchemaResource db) ++ tail) := by
          injection h with h2
          exact h2.symm
        subst hres
        rcases List.mem_cons.mp hr with hhead | hrest
        · exact ⟨db, List.mem_cons_self db rest, Or.inl hhead⟩
        · rcases List.mem_append.mp hrest with hmap | htail
          · obtain ⟨t, _, hrt⟩ := List.mem_map.mp hmap
            exact ⟨db, List.mem_cons_self db rest, Or.inr ⟨t, hrt.symm⟩⟩
          · obtain ⟨db2, hdb2, hshape⟩ := ih tail hrec r htail
            exact ⟨db2, List.mem_cons_of_mem db hdb2, hshape⟩

/-- C4 (amended: literal names only): every resource returned by
`list_resources` belongs to a database of the store whose name is not
literally one of 'system', 'information_schema',
'INFORMATION_SCHEMA'; so those three exact names never appear, while
other case variants of them are not excluded. -/
theorem list_resources_excludes_only_literal_names (s : Store)
    (res : List Resource) (h : list_resources s = .ok res) :
    ∀ r ∈ res, ∃ db, db ∈ s.databases ∧ excludedDbNames.contains db = false ∧
      (r = databaseResource db ∨ ∃ t, r = tableSchemaResource db t) := by
  intro r hr
  obtain ⟨db, hdb, hshape⟩ := listResourcesFrom_mem s (visibleDatabases s) res h r hr
  refine ⟨db, (List.mem_filter.mp hdb).1, ?_, hshape⟩
  have h2 := (List.mem_filter.mp hdb).2
  simpa using h2

theorem list_resources_excludes_only_literal_names_witness :
    list_resources storeSample =
      .ok [databaseResource "SYSTEM", databaseResource "default",
           tableSchemaResource "default" "t"] ∧
    (∃ db, db ∈ storeSample.databases ∧ excludedDbNames.contains db = false ∧
      (databaseResource "default" = databaseResource db ∨
        ∃ t, databaseResource "default" = tableSchemaResource db t)) :=
  ⟨by rfl,
   list_resources_excludes_only_literal_names storeSample
     [databaseResource "SYSTEM", databaseResource "default",
      tableSchemaResource "default" "t"]
     (by rfl) (databaseResource "default") (by decide)⟩

/-- C5: for every SELECT query that passes the gate and executes
successfully, `call_tool` returns one text block whose first line is
the tab-joined column names and whose subsequent lines are the rows in
store order, each value in its display-string form, tab-joined, all
lines joined by newlines. -/
theorem call_tool_select_serialization (s : Store) (q : String)
    (cols : List String) (rows : List (List Value))
    (hg : pyStartsWith (pyUpper (pyStrip q)) "SELECT" = true)
    (he : s.runSelect q = .ok { column_names := cols, result_rows := rows }) :
    call_tool s "execute_select_query" (some q) =
      .ok [{ type := "text",
             text := String.intercalate "\n"
               (String.intercalate "\t" cols ::
                 rows.map (fun row =>
                   String.intercalate "\t" (row.map Value.display))) }] := by
  simp [call_tool, executeSelectQuery, gate_ne_empty q hg, hg, he, renderQueryResult]

theorem call_tool_select_serialization_witness :
    (pyStartsWith (pyUpper (pyStrip "SELECT * FROM test_table")) "SELECT" = true ∧
      storeSample.runSelect "SELECT * FROM test_table" =
        .ok { column_names := ["id", "name", "value"]
              result_rows :=
                [[.vstr "u1", .vstr "Test 1", .vint 10],
                 [.vstr "u2", .vstr "Test 2", .vint 20]] }) ∧
    call_tool storeSample "execute_select_query" (some "SELECT * FROM test_table") =
      .ok [{ type := "text",
             text := "id\tname\tvalue\nu1\tTest 1\t10\nu2\tTest 2\t20" }] := by
  refine ⟨⟨by decide, by rfl⟩, ?_⟩
  have h := call_tool_select_serialization storeSample "SELECT * FROM test_table"
    ["id", "name", "value"]
    [[.vstr "u1", .vstr "Test 1", .vint 10], [.vstr "u2", .vstr "Test 2", .vint 20]]
    (by decide) (by rfl)
  rw [h]
  rfl

/-- C6: for every identifier of the schema shape — scheme "clickhouse://"
and remainder splitting into database, table and the literal "schema" —
where the store returns (name, type) column pairs, `read_resource`
returns exactly the lines "name - type" joined by newlines, no header,
in store order. -/
theorem read_resource_schema_rendering (s : Store) (uri db t : String)
    (cols : List (String × String))
    (hs : pyStartsWith uri "clickhouse://" = true)
    (hsplit : pySplitSlash (uri.drop ("clickhouse://".length)) = [db, t, "schema"])
    (hc : s.describeTable db t = .ok cols) :
    read_resource s uri =
      .ok (String.intercalate "\n" (cols.map (fun c => c.1 ++ " - " ++ c.2))) := by
  unfold read_resource
  rw [hsplit]
  simp [hs, parseUri, hc]

theorem read_resource_schema_rendering_witness :
    (pyStartsWith "clickhouse://default/t/schema" "clickhouse://" = true ∧
      pySplitSlash ("clickhouse://default/t/schema".drop ("clickhouse://".length)) =
        ["default", "t", "schema"] ∧
      storeSample.describeTable "default" "t" =
        .ok [("id", "UUID"), ("name", "String")]) ∧
    read_resource storeSample "clickhouse://default/t/schema" =
      .ok "id - UUID\nname - String" := by
  refine ⟨⟨by decide, by decide, by rfl⟩, ?_⟩
  have h := read_resource_schema_rendering storeSample
    "clickhouse://default/t/schema" "default" "t"
    [("id", "UUID"), ("name", "String")] (by decide) (by decide) (by rfl)
  rw [h]
  rfl

/-- The `list_resources` loop over database names whose table queries
all succeed returns, per database in order, its table-list descriptor
followed by one schema descriptor per table in store order. -/
theorem listResourcesFrom_ok (s : Store) (tbls : String → List String) :
    ∀ dbs : List String, (∀ db ∈ dbs, s.tablesOf db = .ok (tbls db)) →
      listResourcesFrom s dbs =
        .ok (dbs.flatMap
          (fun db => databaseResource db :: (tbls db).map (tableSchemaResource db))) := by
  intro dbs
  induction dbs with
  | nil => intro _; simp [listResourcesFrom]
  | cons db rest ih =>
    intro hall
    have h1 : s.tablesOf db = .ok (tbls db) := hall db (List.mem_cons_self db rest)
    have h2 := ih (fun d hd => hall d (List.mem_cons_of_mem db hd))
    rw [listResourcesFrom, h1, h2]
    simp

/-- C7: when every non-excluded database answers its table query,
`list_resources` returns, for the non-excluded databases in store
order, first the table-list descriptor of the database, then one schema
descriptor per table of that database in store order, and nothing
else. -/
theorem list_resources_shape_and_order (s : Store) (tbls : String → List String)
    (h : ∀ db ∈ visibleDatabases s, s.tablesOf db = .ok (tbls db)) :
    list_resources s =
      .ok ((visibleDatabases s).flatMap
        (fun db => databaseResource db :: (tbls db).map (tableSchemaResource db))) :=
  listResourcesFrom_ok s tbls (visibleDatabases s) h

theorem list_resources_shape_and_order_witness :
    (∀ db ∈ visibleDatabases storeSample,
      storeSample.tablesOf db = .ok (if db = "default" then ["t"] else [])) ∧
    list_resources storeSample =
      .ok [databaseResource "SYSTEM", databaseResource "default",
           tableSchemaResource "default" "t"] := by
  refine ⟨by decide, ?_⟩
  have h := list_resources_shape_and_order storeSample
    (fun db => if db = "default" then ["t"] else []) (by decide)
  rw [h]
  rfl

/-- C8 counterexample: the explicitly supplied non-null host argument ""
does not win — with no environment variables set the resolved host is
the default "localhost", because the source uses Python `or`, which
treats the empty string as absent. -/
theorem empty_host_argument_does_not_win :
    get_clickhouse_client envNone (some "") none none none none =
      .ok { host := "localhost", port := 8123, username := "default",
            password := "", database := "default" } ∧
    ("" : String) ≠ "localhost" :=
  ⟨by rfl, by decide⟩

/-- C8 (amended: first truthy wins, not first non-null): a truthy
explicit argument (non-empty string, nonzero port) always wins; with
falsy or absent arguments a set environment variable wins; with neither,
the defaults "localhost", 8123, "default", "", "default" apply; and a
non-null but falsy argument (empty string, zero port) is treated as
absent. -/
theorem get_clickhouse_client_first_truthy_wins
    (env env0 env1 : String → Option String)
    (h u pw d : String) (p : Int) (eh eu epw ed : String)
    (hh : h ≠ "") (hp : p ≠ 0) (hu : u ≠ "") (hpw : pw ≠ "") (hd : d ≠ "")
    (e0h : env0 "CLICKHOUSE_HOST" = some eh)
    (e0p : env0 "CLICKHOUSE_PORT" = some "9000")
    (e0u : env0 "CLICKHOUSE_USER" = some eu)
    (e0pw : env0 "CLICKHOUSE_PASSWORD" = some epw)
    (e0d : env0 "CLICKHOUSE_DATABASE" = some ed)
    (hnone : ∀ k, env1 k = none) :
    get_clickhouse_client env (some h) (some p) (some u) (some pw) (some d) =
      .ok { host := h, port := p, username := u, password := pw, database := d } ∧
    get_clickhouse_client env0 none none none none none =
      .ok { host := eh, port := 9000, username := eu, password := epw,
            database := ed } ∧
    get_clickhouse_client env1 none none none none none =
      .ok { host := "localhost", port := 8123, username := "default",
            password := "", database := "default" } ∧
    get_clickhouse_client env1 (some "") (some 0) (some "") (some "") (some "") =
      .ok { host := "localhost", port := 8123, username := "default",
            password := "", database := "default" } := by
  have hport0 : envPortInt env0 = .ok 9000 := by
    unfold envPortInt getenvD
    rw [e0p]
    rfl
  have hport1 : envPortInt env1 = .ok 8123 := by
    unfold envPortInt getenvD
    rw [hnone]
    rfl
  refine ⟨?_, ?_, ?_, ?_⟩
  · simp [get_clickhouse_client, pyOrInt, pyOrStr, hh, hp, hu, hpw, hd]
  · simp [get_clickhouse_client, pyOrInt, pyOrStr, getenvD, e0h, e0u, e0pw, e0d,
      hport0]
  · simp [get_clickhouse_client, pyOrInt, pyOrStr, getenvD, hnone, hport1]
  · simp [get_clickhouse_client, pyOrInt, pyOrStr, getenvD, hnone, hport1]

theorem get_clickhouse_client_first_truthy_wins_witness :
    ("myhost" ≠ "" ∧ (9000 : Int) ≠ 0 ∧
      envSample "CLICKHOUSE_HOST" = some "envhost" ∧
      envNone "CLICKHOUSE_HOST" = none) ∧
    get_clickhouse_client envNone (some "myhost") (some 9000) (some "u1")
        (some "pw1") (some "db1") =
      .ok { host := "myhost", port := 9000, username := "u1",
            password := "pw1", database := "db1" } ∧
    get_clickhouse_client envSample none none none none none =
      .ok { host := "envhost", port := 9000, username := "envuser",
            password := "envpw", database := "envdb" } ∧
    get_clickhouse_client envNone none none none none none =
      .ok { host := "localhost", port := 8123, username := "default",
            password := "", database := "default" } :=
  ⟨⟨by decide, by decide, by rfl, by rfl⟩,
   (get_clickhouse_client_first_truthy_wins envNone envSample envNone
      "myhost" "u1" "pw1" "db1" 9000 "envhost" "envuser" "envpw" "envdb"
      (by decide) (by decide) (by decide) (by decide) (by decide)
      (by rfl) (by rfl) (by rfl) (by rfl) (by rfl) (fun _ => rfl)).1,
   (get_clickhouse_client_first_truthy_wins envNone envSample envNone
      "myhost" "u1" "pw1" "db1" 9000 "envhost" "envuser" "envpw" "envdb"
      (by decide) (by decide) (by decide) (by decide) (by decide)
      (by rfl) (by rfl) (by rfl) (by rfl) (by rfl) (fun _ => rfl)).2.1,
   (get_clickhouse_client_first_truthy_wins envNone envSample envNone
      "myhost" "u1" "pw1" "db1" 9000 "envhost" "envuser" "envpw" "envdb"
      (by decide) (by decide) (by decide) (by decide) (by decide)
      (by rfl) (by rfl) (by rfl) (by rfl) (by rfl) (fun _ => rfl)).2.2.1⟩

/-- C9: the read-only gate is a pure prefix check — for every query
whose stripped, upper-cased form begins with the six characters SELECT,
even when SELECT is not a standalone token, `call_tool` passes the gate
and sends the query verbatim to the backing store, its answer (or
error) determining the response instead of the rejection message. -/
theorem call_tool_gate_is_prefix_check (s : Store) (q : String)
    (hg : pyStartsWith (pyUpper (pyStrip q)) "SELECT" = true) :
    call_tool s "execute_select_query" (some q) =
      (match s.runSelect q with
       | .ok r => .ok [{ type := "text", text := renderQueryResult r }]
       | .error m =>
         .ok [{ type := "text", text := "Error executing query: " ++ m }]) := by
  simp [call_tool, executeSelectQuery, gate_ne_empty q hg, hg]

theorem call_tool_gate_is_prefix_check_witness :
    (pyStartsWith (pyUpper (pyStrip "SELECTED 1")) "SELECT" = true) ∧
    call_tool storeEmpty "execute_select_query" (some "SELECTED 1") =
      .ok [{ type := "text", text := "Error executing query: boom" }] := by
  refine ⟨by decide, ?_⟩
  have h := call_tool_gate_is_prefix_check storeEmpty "SELECTED 1" (by decide)
  rw [h]
  rfl

/-- C10: a `call_tool` invocation on `execute_select_query` whose
`query` argument is the empty string fails with the same
`ValueError("Query is required")` as when the key is absent, for every
store — so neither the gate nor the backing store is reached. -/
theorem call_tool_empty_query_missing_argument (s : Store) :
    call_tool s "execute_select_query" (some "") =
      .error (.valueError "Query is required") ∧
    call_tool s "execute_select_query" none =
      .error (.valueError "Query is required") := by
  constructor <;> rfl

theorem call_tool_empty_query_missing_argument_witness :
    call_tool storeEmpty "execute_select_query" (some "") =
      .error (.valueError "Query is required") ∧
    call_tool storeEmpty "execute_select_query" none =
      .error (.valueError "Query is required") :=
  call_tool_empty_query_missing_argument storeEmpty

end ClickhouseMcp
